import Mathlib

/-!
Shallow embedding of the offline-first todo sync engine
(src/src/utils/database.ts and src/src/utils/sync.ts).

Timestamps are JavaScript epoch-millisecond numbers, modelled as `Nat`.
Optional fields of the stored record are modelled with `Option`; JavaScript
truthiness tests on numbers and strings are modelled explicitly (0, the empty
string and `undefined` are falsy).
-/

namespace OfflinePoc

/-- The value of a record's lastAction field when defined
(database.ts line 12). -/
inductive Action where
  | create
  | update
  | delete
  deriving Repr, DecidableEq

/-- The TodoItem interface of database.ts (lines 3-16): the record stored in
the IndexedDB todos store.  The optional boolean fields (deleted, localOnly,
serverDeleted) are read only through truthiness in the source, so undefined
and false collapse to `false` here. -/
structure TodoItem where
  id : Option Nat
  serverId : Option String
  title : String
  completed : Bool
  createdAt : Nat
  updatedAt : Nat
  syncedAt : Option Nat
  deleted : Bool
  lastAction : Option Action
  localOnly : Bool
  serverDeleted : Bool
  syncError : Option String
  deriving Repr, DecidableEq

/-- JavaScript truthiness of an optional number: undefined and 0 are falsy. -/
def truthyNum : Option Nat → Bool
  | none => false
  | some n => n != 0

/-- JavaScript truthiness of an optional string: undefined and the empty
string are falsy. -/
def truthyString : Option String → Bool
  | none => false
  | some s => s != ""

/-- The filter of getUnsyncedTodos (database.ts lines 68-72):
syncedAt undefined, or (deleted and lastAction is delete), or
(lastAction is update and updatedAt exceeds syncedAt-or-0). -/
def isUnsynced (todo : TodoItem) : Bool :=
  todo.syncedAt.isNone ||
  (todo.deleted && decide (todo.lastAction = some Action.delete)) ||
  (decide (todo.lastAction = some Action.update) &&
    decide (todo.syncedAt.getD 0 < todo.updatedAt))

/-- getUnsyncedTodos (database.ts lines 65-75): reads every record of the
store and filters by `isUnsynced`; it performs no writes. -/
def getUnsyncedTodos (todos : List TodoItem) : List TodoItem :=
  todos.filter isUnsynced

/-- Modelled from the spec: the dirty predicate as section 3 of the
specification words it (syncedAt undefined, or lastAction not none, or
deleted with the remote deletion not yet confirmed), used only to compare
the specified selector against the implemented one. -/
def specDirtyPredicate (todo : TodoItem) : Bool :=
  todo.syncedAt.isNone || todo.lastAction.isSome ||
    (todo.deleted && !todo.serverDeleted)

/-- The Partial TodoItem argument of updateTodo.  A field holds `none` when
the caller did not supply it.  For syncError the source distinguishes a key
that is absent (the spread keeps the old value) from a key supplied with the
value undefined (the spread clears the field), hence the nested Option. -/
structure TodoUpdates where
  serverId : Option String := none
  title : Option String := none
  completed : Option Bool := none
  createdAt : Option Nat := none
  updatedAt : Option Nat := none
  syncedAt : Option Nat := none
  deleted : Option Bool := none
  lastAction : Option Action := none
  localOnly : Option Bool := none
  serverDeleted : Option Bool := none
  syncError : Option (Option String) := none
  deriving Repr, DecidableEq

/-- The record produced by updateTodo (database.ts lines 82-95) from the
stored record, the supplied updates and the current time:
spread of the updates over the record, then id kept, serverId kept unless a
truthy one is supplied, updatedAt set to the current time, lastAction
defaulted to update when falsy, createdAt and syncedAt taken from the updates
only when truthy. -/
def applyUpdates (todo : TodoItem) (u : TodoUpdates) (now : Nat) : TodoItem :=
  { id := todo.id
    serverId := if truthyString u.serverId then u.serverId else todo.serverId
    title := u.title.getD todo.title
    completed := u.completed.getD todo.completed
    createdAt := if truthyNum u.createdAt then u.createdAt.getD 0 else todo.createdAt
    updatedAt := now
    syncedAt := if truthyNum u.syncedAt then u.syncedAt else todo.syncedAt
    deleted := u.deleted.getD todo.deleted
    lastAction := some (u.lastAction.getD Action.update)
    localOnly := u.localOnly.getD todo.localOnly
    serverDeleted := u.serverDeleted.getD todo.serverDeleted
    syncError :=
      match u.syncError with
      | none => todo.syncError
      | some v => v }

/-- updateTodo at store level (database.ts lines 77-98): get the record by
key and put back the rewritten record.  The source throws when the id is
absent from the store; every call site settled here updates an id read from
the store, so the missing-id case (modelled as leaving the store unchanged)
is never exercised. -/
def updateTodo (store : List TodoItem) (id : Nat) (u : TodoUpdates) (now : Nat) :
    List TodoItem :=
  store.map fun t => if t.id = some id then applyUpdates t u now else t

/-- The updates object built by markTodoDeleted (database.ts lines 100-107). -/
def markDeletedUpdates (isDeleted : Bool) (now : Nat) : TodoUpdates :=
  { deleted := some isDeleted
    lastAction := if isDeleted then some Action.delete else none
    syncedAt := if isDeleted then none else some now
    serverDeleted := some isDeleted }

/-- markTodoDeleted on the record it rewrites: updateTodo with
`markDeletedUpdates`. -/
def markTodoDeleted (todo : TodoItem) (isDeleted : Bool) (now : Nat) : TodoItem :=
  applyUpdates todo (markDeletedUpdates isDeleted now) now

/-- addTodo (database.ts lines 45-57): the inserted record keeps the caller's
serverId, title, completed, serverDeleted and syncError, and overrides
createdAt and updatedAt with the current time, syncedAt with undefined,
deleted with false, lastAction with create and localOnly with true; the store
assigns the fresh id. -/
def addTodo (todo : TodoItem) (now : Nat) (newId : Nat) : TodoItem :=
  { todo with
    id := some newId
    createdAt := now
    updatedAt := now
    syncedAt := none
    deleted := false
    lastAction := some Action.create
    localOnly := true }

/-- The filter of cleanupDeletedTodos (database.ts lines 130-135):
deleted, serverDeleted, syncedAt truthy and syncError falsy. -/
def deletedAndSynced (todo : TodoItem) : Bool :=
  todo.deleted && todo.serverDeleted && truthyNum todo.syncedAt &&
    !(truthyString todo.syncError)

/-- cleanupDeletedTodos (database.ts lines 127-140): permanently removes from
the store every record matching `deletedAndSynced`. -/
def cleanupDeletedTodos (todos : List TodoItem) : List TodoItem :=
  todos.filter fun t => !(deletedAndSynced t)

/-- An authoritative record of a successful sync response (sync.ts lines
107, 118-156): _id, title, completed, timestamps and syncedAt are always
present; deleted is read through truthiness. -/
structure ServerTodo where
  _id : String
  title : String
  completed : Bool
  createdAt : Nat
  updatedAt : Nat
  syncedAt : Nat
  deleted : Bool := false
  deriving Repr, DecidableEq

/-- The matching predicate of the find call in sendToServer (sync.ts lines
119-123): serverId strictly equal to the authoritative _id, or serverId
falsy and title equal.  A single disjunction evaluated record by record. -/
def matchesServerTodo (s : ServerTodo) (t : TodoItem) : Bool :=
  decide (t.serverId = some s._id) ||
    (!(truthyString t.serverId) && decide (t.title = s.title))

/-- The find over the snapshot of all local records (sync.ts lines 118-123):
first record, in store order, satisfying `matchesServerTodo`. -/
def findLocalMatch (allLocalTodos : List TodoItem) (s : ServerTodo) :
    Option TodoItem :=
  allLocalTodos.find? (matchesServerTodo s)

/-- The updates object of the reconciliation update branch (sync.ts lines
134-143): every authoritative field supplied, lastAction supplied as
undefined and syncError supplied as undefined (an explicit clear through the
spread). -/
def serverTodoUpdates (s : ServerTodo) : TodoUpdates :=
  { serverId := some s._id
    title := some s.title
    completed := some s.completed
    createdAt := some s.createdAt
    updatedAt := some s.updatedAt
    syncedAt := some s.syncedAt
    lastAction := none
    syncError := some none }

/-- The object handed to addTodo in the new-record branch (sync.ts lines
147-155): authoritative fields plus localOnly false; no id, no deleted, no
lastAction, no serverDeleted, no syncError. -/
def serverNewTodo (s : ServerTodo) : TodoItem :=
  { id := none
    serverId := some s._id
    title := s.title
    completed := s.completed
    createdAt := s.createdAt
    updatedAt := s.updatedAt
    syncedAt := some s.syncedAt
    deleted := false
    lastAction := none
    localOnly := false
    serverDeleted := false
    syncError := none }

/-- One iteration of the reconciliation loop (sync.ts lines 118-157).  The
match is looked up in the snapshot of local records taken before the loop
(line 115), while the update is applied to the current store by the id read
from the snapshot; an unmatched authoritative record is appended with the
next fresh store key. -/
def reconcileOne (snapshot : List TodoItem) (cur : List TodoItem) (nextId : Nat)
    (s : ServerTodo) (now : Nat) : List TodoItem × Nat :=
  match findLocalMatch snapshot s with
  | some localTodo =>
      let i := localTodo.id.getD 0
      if s.deleted then
        (updateTodo cur i (markDeletedUpdates true now) now, nextId)
      else if localTodo.deleted then
        (updateTodo cur i (markDeletedUpdates false now) now, nextId)
      else
        (updateTodo cur i (serverTodoUpdates s) now, nextId)
  | none => (cur ++ [addTodo (serverNewTodo s) now nextId], nextId + 1)

/-- The whole reconciliation loop of sendToServer over the authoritative
batch, folding `reconcileOne` with the pre-loop snapshot held fixed. -/
def reconcileAll (store : List TodoItem) (serverTodos : List ServerTodo)
    (now : Nat) (nextId : Nat) : List TodoItem :=
  (serverTodos.foldl (fun acc s => reconcileOne store acc.1 acc.2 s now)
    (store, nextId)).1

/-- The updates object of the failure annotation loop (sync.ts lines
163-169): only syncError supplied. -/
def syncErrorUpdates (msg : String) : TodoUpdates :=
  { syncError := some (some msg) }

/-- The catch block of sendToServer (sync.ts lines 160-171): every pushed
record that has an id is rewritten through updateTodo with only syncError
supplied. -/
def markSyncErrors (store : List TodoItem) (todos : List TodoItem)
    (msg : String) (now : Nat) : List TodoItem :=
  todos.foldl
    (fun cur t =>
      match t.id with
      | some i => updateTodo cur i (syncErrorUpdates msg) now
      | none => cur)
    store

/-- Outcome of the network call as the transport reports it: a non-2xx
response carrying the server message, a body that is not the expected batch
shape, or the authoritative batch. -/
inductive TransportResult where
  | httpError (message : String)
  | invalidBody
  | ok (serverTodos : List ServerTodo)
  deriving Repr, DecidableEq

/-- Result of one sendToServer call: the store after its writes, either the
returned boolean or the thrown message, and the batch handed to the network
(none when no network call was attempted). -/
structure SendOutcome where
  store : List TodoItem
  result : Except String Bool
  pushedBatch : Option (List TodoItem)
  deriving Repr

/-- sendToServer (sync.ts lines 76-172).  When isOnline is false at the time
of the call it returns false before any network traffic (line 77).  A non-2xx
response throws with the server message, an invalid body throws with the
fixed message; both are caught, every pushed record is annotated with the
message as syncError, and the error is rethrown.  A well-formed success
reconciles the authoritative batch and returns true.  The isOnline flag read
here may differ from the one read at the start of syncData, because the
offline event handler can run between the two reads. -/
def sendToServer (isOnlineAtPush : Bool) (store : List TodoItem)
    (todos : List TodoItem) (tr : TransportResult) (now : Nat) (nextId : Nat) :
    SendOutcome :=
  if !isOnlineAtPush then ⟨store, Except.ok false, none⟩
  else
    match tr with
    | TransportResult.httpError msg =>
        let m := "Sync failed: " ++ msg
        ⟨markSyncErrors store todos m now, Except.error m, some todos⟩
    | TransportResult.invalidBody =>
        let m := "Invalid response format from server"
        ⟨markSyncErrors store todos m now, Except.error m, some todos⟩
    | TransportResult.ok serverTodos =>
        ⟨reconcileAll store serverTodos now nextId, Except.ok true, some todos⟩

/-- The mutable fields of SyncService (sync.ts lines 13-18) together with the
store: isOnline, the single-flight guard, retryCount, and the delay of the
pending scheduled retry when one is armed (the retryTimeout handle). -/
structure SyncState where
  isOnline : Bool
  syncInProgress : Bool
  retryCount : Nat
  retryDelay : Option Nat
  store : List TodoItem
  deriving Repr, DecidableEq

/-- The events emitted through emitEvent (sync.ts lines 5-9, 56-58). -/
inductive SyncEvent where
  | syncStart
  | syncComplete (message : String)
  | syncError (message : String) (retryCount : Nat)
  | onlineStatusChange (isOnline : Bool)
  deriving Repr, DecidableEq

/-- maxRetries (sync.ts line 17). -/
def maxRetries : Nat := 3

/-- Result of one syncData invocation: the state when it returns, the events
emitted in order, and the batch handed to the network (none when no network
call was attempted). -/
structure SyncResult where
  state : SyncState
  events : List SyncEvent
  pushedBatch : Option (List TodoItem)
  deriving Repr, DecidableEq

/-- syncData (sync.ts lines 174-217).  The guard returns at once when offline
or already in progress.  Otherwise the dirty set is read; when empty the
cycle completes with no network call.  Otherwise sendToServer runs with the
isOnline value current at push time: a thrown transport error is caught and
reported with the retryCount held unchanged; a true return resets retryCount
and reports success; a false return (possible only when connectivity was
lost between the two isOnline reads) increments retryCount while below
maxRetries and arms the backoff timer with the post-increment count, and
does nothing further once retryCount has reached maxRetries.  The
single-flight flag is true for the duration of the call and false again when
it returns. -/
def syncData (st : SyncState) (isOnlineAtPush : Bool) (tr : TransportResult)
    (now : Nat) (nextId : Nat) : SyncResult :=
  if !st.isOnline || st.syncInProgress then ⟨st, [], none⟩
  else
    let unsyncedTodos := getUnsyncedTodos st.store
    if unsyncedTodos.length = 0 then
      ⟨{ st with syncInProgress := false },
       [SyncEvent.syncStart, SyncEvent.syncComplete "No items to sync"], none⟩
    else
      let outcome := sendToServer isOnlineAtPush st.store unsyncedTodos tr now nextId
      match outcome.result with
      | Except.error msg =>
          ⟨{ st with store := outcome.store, syncInProgress := false },
           [SyncEvent.syncStart, SyncEvent.syncError msg st.retryCount],
           outcome.pushedBatch⟩
      | Except.ok true =>
          ⟨{ st with store := outcome.store, retryCount := 0, syncInProgress := false },
           [SyncEvent.syncStart,
            SyncEvent.syncComplete
              ("Successfully synced " ++ toString unsyncedTodos.length ++ " items")],
           outcome.pushedBatch⟩
      | Except.ok false =>
          if st.retryCount < maxRetries then
            let st' : SyncState :=
              { st with
                store := outcome.store
                retryCount := st.retryCount + 1
                retryDelay := some (min (1000 * 2 ^ (st.retryCount + 1)) 30000)
                syncInProgress := false }
            ⟨st',
             [SyncEvent.syncStart,
              SyncEvent.syncError
                ("Failed to sync " ++ toString unsyncedTodos.length ++
                  " items. Retrying...")
                (st.retryCount + 1)],
             outcome.pushedBatch⟩
          else
            ⟨{ st with store := outcome.store, syncInProgress := false },
             [SyncEvent.syncStart], outcome.pushedBatch⟩

/-- handleOnline (sync.ts lines 60-65) before its trailing syncData call:
isOnline set, the status event emitted, retryCount reset to 0. -/
def handleOnline (st : SyncState) : SyncState × List SyncEvent :=
  ({ st with isOnline := true, retryCount := 0 },
   [SyncEvent.onlineStatusChange true])

/-- handleOffline (sync.ts lines 67-74): isOnline cleared, the status event
emitted, a pending scheduled retry cancelled without touching retryCount. -/
def handleOffline (st : SyncState) : SyncState × List SyncEvent :=
  ({ st with isOnline := false, retryDelay := none },
   [SyncEvent.onlineStatusChange false])

/-- A pushed batch hits a store record when some batch member carries the
record's id (the annotation loop of sync.ts lines 163-169 skips members
without an id). -/
def pushedHits (pushed : List TodoItem) (t : TodoItem) : Bool :=
  pushed.any fun p => p.id.isSome && decide (p.id = t.id)

/-! ### Concrete records used to settle the claims -/

/-- A record with syncedAt set, lastAction update and updatedAt not past
syncedAt: dirty under the specified predicate, not selected by the code. -/
def c1Record : TodoItem :=
  { id := some 1
    serverId := some "srv9"
    title := "t"
    completed := false
    createdAt := 1
    updatedAt := 3
    syncedAt := some 5
    deleted := false
    lastAction := some Action.update
    localOnly := false
    serverDeleted := false
    syncError := none }

/-- The freshly created, never synced local record of Scenario B. -/
def c2Local : TodoItem :=
  { id := some 1
    serverId := none
    title := "buy milk"
    completed := false
    createdAt := 100
    updatedAt := 100
    syncedAt := none
    deleted := false
    lastAction := some Action.create
    localOnly := true
    serverDeleted := false
    syncError := none }

/-- The authoritative answer of Scenario B. -/
def c2Server : ServerTodo :=
  { _id := "srv1"
    title := "buy milk"
    completed := false
    createdAt := 100
    updatedAt := 100
    syncedAt := 200 }

/-- An idle online state holding one dirty record. -/
def c3State : SyncState :=
  { isOnline := true
    syncInProgress := false
    retryCount := 0
    retryDelay := none
    store := [c2Local] }

/-- One syncData cycle against an HTTP 500 answer. -/
def c3Step (st : SyncState) : SyncState :=
  (syncData st true (TransportResult.httpError "Internal Server Error") 300 5).state

/-- An authoritative record matching nothing in the local store. -/
def c4Server : ServerTodo :=
  { _id := "srv2"
    title := "remote only"
    completed := true
    createdAt := 100
    updatedAt := 150
    syncedAt := 200 }

/-- A record whose serverId is unset and whose title equals the pushed
record's title, placed before the record carrying the matching serverId. -/
def c7TitleMatch : TodoItem :=
  { c2Local with id := some 1, serverId := none, title := "x" }

/-- The record carrying the authoritative identifier. -/
def c7IdMatch : TodoItem :=
  { c2Local with id := some 2, serverId := some "srv1", title := "y" }

/-- An authoritative record whose _id equals c7IdMatch's serverId and whose
title equals c7TitleMatch's title. -/
def c7Server : ServerTodo :=
  { _id := "srv1"
    title := "x"
    completed := false
    createdAt := 100
    updatedAt := 100
    syncedAt := 200 }

/-- A confirmed-deleted record whose syncError is the empty string: present,
hence not absent, yet falsy. -/
def c8Record : TodoItem :=
  { id := some 1
    serverId := some "srv1"
    title := "a"
    completed := false
    createdAt := 1
    updatedAt := 2
    syncedAt := some 5
    deleted := true
    lastAction := some Action.delete
    localOnly := false
    serverDeleted := true
    syncError := some "" }

/-- A state with a cycle already in flight. -/
def c9State : SyncState :=
  { isOnline := true
    syncInProgress := true
    retryCount := 1
    retryDelay := none
    store := [c2Local] }

end OfflinePoc

namespace OfflinePoc

/-! ### Helper lemmas -/

theorem truthyNum_eq_true (o : Option Nat) :
    truthyNum o = true ↔ ∃ n, o = some n ∧ n ≠ 0 := by
  cases o <;> simp [truthyNum]

theorem truthyString_eq_false (o : Option String) :
    truthyString o = false ↔ o = none ∨ o = some "" := by
  cases o <;> simp [truthyString]

theorem isUnsynced_iff (t : TodoItem) :
    isUnsynced t = true ↔
      t.syncedAt = none ∨ (t.deleted = true ∧ t.lastAction = some Action.delete) ∨
        (t.lastAction = some Action.update ∧ t.syncedAt.getD 0 < t.updatedAt) := by
  simp [isUnsynced, Bool.or_eq_true, Bool.and_eq_true, Option.isNone_iff_eq_none,
    or_assoc]

theorem deletedAndSynced_iff (t : TodoItem) :
    deletedAndSynced t = true ↔
      t.deleted = true ∧ t.serverDeleted = true ∧
        (∃ n, t.syncedAt = some n ∧ n ≠ 0) ∧
        (t.syncError = none ∨ t.syncError = some "") := by
  simp [deletedAndSynced, Bool.and_eq_true, Bool.not_eq_true', truthyNum_eq_true,
    truthyString_eq_false, and_assoc]

theorem matchesServerTodo_iff (s : ServerTodo) (t : TodoItem) :
    matchesServerTodo s t = true ↔
      t.serverId = some s._id ∨
        (truthyString t.serverId = false ∧ t.title = s.title) := by
  simp [matchesServerTodo, Bool.or_eq_true, Bool.and_eq_true, Bool.not_eq_true']

/-! ### C1 -/

/-- C1, counterexample: c1Record is dirty under the predicate the claim
states (its lastAction is not none) yet getUnsyncedTodos does not select it,
because the code also requires updatedAt to exceed syncedAt for an update
and checks the tombstone through lastAction, not serverDeleted. -/
theorem C1_spec_dirty_not_selected :
    specDirtyPredicate c1Record = true ∧ getUnsyncedTodos [c1Record] = [] :=
  ⟨rfl, rfl⟩

/-- C1, amended: getUnsyncedTodos returns, in store order and without
writing, exactly the records with syncedAt undefined, or deleted with
lastAction delete, or lastAction update with updatedAt strictly past
syncedAt-or-zero; the serverDeleted flag plays no part and a record whose
lastAction is set need not be selected. -/
theorem C1_unsynced_selector (todos : List TodoItem) :
    (getUnsyncedTodos todos).Sublist todos ∧
      ∀ t : TodoItem, t ∈ getUnsyncedTodos todos ↔
        t ∈ todos ∧ (t.syncedAt = none ∨
          (t.deleted = true ∧ t.lastAction = some Action.delete) ∨
          (t.lastAction = some Action.update ∧ t.syncedAt.getD 0 < t.updatedAt)) := by
  refine ⟨List.filter_sublist _, fun t => ?_⟩
  rw [getUnsyncedTodos, List.mem_filter, isUnsynced_iff]

/-- C1, witness: the amended selector characterization at a one-record
store. -/
theorem C1_unsynced_selector_witness :
    (getUnsyncedTodos [c1Record]).Sublist [c1Record] ∧
      ∀ t : TodoItem, t ∈ getUnsyncedTodos [c1Record] ↔
        t ∈ [c1Record] ∧ (t.syncedAt = none ∨
          (t.deleted = true ∧ t.lastAction = some Action.delete) ∨
          (t.lastAction = some Action.update ∧ t.syncedAt.getD 0 < t.updatedAt)) :=
  C1_unsynced_selector [c1Record]

/-! ### C2 -/

/-- C2: evaluating the reconciliation of Scenario B.  The matched local
record does acquire serverId srv1 and syncedAt T2, but updateTodo overwrites
updatedAt with the current time instead of the authoritative value and
coerces the supplied undefined lastAction to update, so lastAction is not
cleared to none and the record stays dirty. -/
theorem C2_scenarioB_eval :
    reconcileAll [c2Local] [c2Server] 300 2 =
      [{ c2Local with
          serverId := some "srv1"
          updatedAt := 300
          syncedAt := some 200
          lastAction := some Action.update }] ∧
      isUnsynced { c2Local with
          serverId := some "srv1"
          updatedAt := 300
          syncedAt := some 200
          lastAction := some Action.update } = true :=
  ⟨rfl, rfl⟩

/-! ### C4 -/

/-- C4: evaluating the insertion of an authoritative record with no local
match.  addTodo overrides the caller's values, so the new record carries
localOnly true (the claim says false), syncedAt undefined, lastAction create
and the current time in both timestamps; only serverId, title and completed
survive from the authoritative record. -/
theorem C4_remote_insert_eval :
    reconcileAll [] [c4Server] 300 1 =
      [{ id := some 1
         serverId := some "srv2"
         title := "remote only"
         completed := true
         createdAt := 300
         updatedAt := 300
         syncedAt := none
         deleted := false
         lastAction := some Action.create
         localOnly := true
         serverDeleted := false
         syncError := none }] :=
  rfl

/-! ### C7 -/

/-- C7, counterexample: the store holds a record with no serverId and the
pushed title first, then the record whose serverId equals the authoritative
_id; the single find with a disjunctive predicate returns the first record,
so the remoteId match does not take precedence. -/
theorem C7_title_beats_remoteId_eval :
    findLocalMatch [c7TitleMatch, c7IdMatch] c7Server = some c7TitleMatch ∧
      c7IdMatch.serverId = some c7Server._id ∧
      c7TitleMatch.serverId ≠ some c7Server._id := by
  refine ⟨rfl, rfl, by decide⟩

/-- C7, amended: the match is the first record in store order satisfying the
single disjunction (serverId equal to the authoritative _id, or serverId
falsy and title equal); every earlier record fails both disjuncts, and
neither disjunct takes precedence over the other. -/
theorem C7_first_match (todos : List TodoItem) (s : ServerTodo) (r : TodoItem) :
    (findLocalMatch todos s = some r ↔
      matchesServerTodo s r = true ∧
        ∃ as bs, todos = as ++ r :: bs ∧ ∀ t ∈ as, matchesServerTodo s t = false) ∧
    (∀ t : TodoItem, matchesServerTodo s t = true ↔
      t.serverId = some s._id ∨
        (truthyString t.serverId = false ∧ t.title = s.title)) := by
  refine ⟨?_, fun t => matchesServerTodo_iff s t⟩
  rw [findLocalMatch, List.find?_eq_some]
  simp [Bool.not_eq_true']

/-- C7, witness: the first-match characterization instantiated at the
two-record counterexample store. -/
theorem C7_first_match_witness :
    (findLocalMatch [c7TitleMatch, c7IdMatch] c7Server = some c7TitleMatch ↔
      matchesServerTodo c7Server c7TitleMatch = true ∧
        ∃ as bs, [c7TitleMatch, c7IdMatch] = as ++ c7TitleMatch :: bs ∧
          ∀ t ∈ as, matchesServerTodo c7Server t = false) ∧
    (∀ t : TodoItem, matchesServerTodo c7Server t = true ↔
      t.serverId = some c7Server._id ∨
        (truthyString t.serverId = false ∧ t.title = c7Server.title)) :=
  C7_first_match [c7TitleMatch, c7IdMatch] c7Server c7TitleMatch

/-! ### C8 -/

/-- C8, counterexample: c8Record carries syncError as the empty string, which
is present rather than absent, yet the cleanup pass removes the record
because the code tests syncError through truthiness. -/
theorem C8_empty_syncError_removed_eval :
    cleanupDeletedTodos [c8Record] = [] ∧ c8Record.syncError ≠ none := by
  refine ⟨rfl, by decide⟩

/-- C8, amended: the cleanup pass removes exactly the records with deleted
and serverDeleted set, a truthy syncedAt (present and nonzero) and a falsy
syncError (absent or the empty string); every other record survives in store
order. -/
theorem C8_cleanup_characterization (todos : List TodoItem) :
    (cleanupDeletedTodos todos).Sublist todos ∧
      ∀ t : TodoItem, t ∈ cleanupDeletedTodos todos ↔
        t ∈ todos ∧
          ¬(t.deleted = true ∧ t.serverDeleted = true ∧
            (∃ n, t.syncedAt = some n ∧ n ≠ 0) ∧
            (t.syncError = none ∨ t.syncError = some "")) := by
  refine ⟨List.filter_sublist _, fun t => ?_⟩
  rw [cleanupDeletedTodos, List.mem_filter]
  simp [Bool.not_eq_true', ← deletedAndSynced_iff]

/-- C8, witness: the cleanup characterization at the one-record store of the
counterexample. -/
theorem C8_cleanup_characterization_witness :
    (cleanupDeletedTodos [c8Record]).Sublist [c8Record] ∧
      ∀ t : TodoItem, t ∈ cleanupDeletedTodos [c8Record] ↔
        t ∈ [c8Record] ∧
          ¬(t.deleted = true ∧ t.serverDeleted = true ∧
            (∃ n, t.syncedAt = some n ∧ n ≠ 0) ∧
            (t.syncError = none ∨ t.syncError = some "")) :=
  C8_cleanup_characterization [c8Record]

/-! ### C9 -/

/-- C9: a syncData call while a cycle is in progress, or while connectivity
is believed offline, returns the state unchanged, emits no event and hands
no batch to the network, whatever the transport would have answered; the
trigger is not queued anywhere in the state. -/
theorem C9_single_flight (st : SyncState) (p : Bool) (tr : TransportResult)
    (now nextId : Nat) (h : st.syncInProgress = true ∨ st.isOnline = false) :
    syncData st p tr now nextId = ⟨st, [], none⟩ := by
  rcases h with h | h <;> simp [syncData, h]

/-- C9, witness: the guard at a concrete in-flight state. -/
theorem C9_single_flight_witness :
    syncData c9State true (TransportResult.ok []) 0 0 = ⟨c9State, [], none⟩ :=
  C9_single_flight c9State true (TransportResult.ok []) 0 0 (Or.inl rfl)

/-! ### C10 -/

/-- C10: updateTodo always stamps updatedAt with the current time, never a
supplied value; a falsy supplied lastAction is coerced to update so the
rewritten record never has lastAction none; a falsy supplied syncedAt leaves
the stored syncedAt in place; and markTodoDeleted with isDeleted true, which
supplies syncedAt as undefined, preserves the old syncedAt. -/
theorem C10_updateTodo_coercions (todo : TodoItem) (u : TodoUpdates) (now : Nat) :
    (applyUpdates todo u now).updatedAt = now ∧
    (applyUpdates todo u now).lastAction ≠ none ∧
    (u.lastAction = none → (applyUpdates todo u now).lastAction = some Action.update) ∧
    (u.syncedAt = none → (applyUpdates todo u now).syncedAt = todo.syncedAt) ∧
    (markTodoDeleted todo true now).syncedAt = todo.syncedAt := by
  refine ⟨rfl, by simp [applyUpdates], ?_, ?_, rfl⟩
  · intro h
    simp [applyUpdates, h]
  · intro h
    simp [applyUpdates, h, truthyNum]

/-- C10, witness: the coercions at a concrete record with the empty updates
object, every hypothesis discharged. -/
theorem C10_updateTodo_coercions_witness :
    (applyUpdates c2Local {} 7).updatedAt = 7 ∧
      (applyUpdates c2Local {} 7).lastAction = some Action.update ∧
      (applyUpdates c2Local {} 7).syncedAt = c2Local.syncedAt ∧
      (markTodoDeleted c2Local true 7).syncedAt = c2Local.syncedAt :=
  ⟨(C10_updateTodo_coercions c2Local {} 7).1,
   (C10_updateTodo_coercions c2Local {} 7).2.2.1 rfl,
   (C10_updateTodo_coercions c2Local {} 7).2.2.2.1 rfl,
   (C10_updateTodo_coercions c2Local {} 7).2.2.2.2⟩

/-! ### C3 -/

/-- C3, counterexample: from an idle online state with retryCount 0, an
HTTP 500 answer leaves retryCount at 0 and arms no retry timer, and after
three consecutive HTTP 500 cycles retryCount is still 0, not maxRetries:
the thrown transport error bypasses the retry branch. -/
theorem C3_http500_three_failures_eval :
    (c3Step c3State).retryCount = 0 ∧ (c3Step c3State).retryDelay = none ∧
      (syncData c3State true (TransportResult.httpError "Internal Server Error")
        300 5).events =
        [SyncEvent.syncStart,
         SyncEvent.syncError "Sync failed: Internal Server Error" 0] ∧
      (c3Step (c3Step (c3Step c3State))).retryCount = 0 ∧
      (c3Step (c3Step (c3Step c3State))).retryCount ≠ maxRetries := by
  refine ⟨rfl, rfl, rfl, rfl, by decide⟩

/-- C3, amended: a push failing with a non-2xx response or an invalid body
raises an error that syncData catches: the cycle emits syncError carrying
the unchanged retryCount, annotates the pushed records, increments nothing
and schedules no retry; with connectivity still believed online at push
time no transport answer arms the retry timer, so the retry branch can run
only when sendToServer returned false, i.e. when connectivity was already
believed offline at push time. -/
theorem C3_transport_error_no_retry (st : SyncState) (msg : String)
    (now nextId : Nat) (hon : st.isOnline = true)
    (hprog : st.syncInProgress = false)
    (hdirty : getUnsyncedTodos st.store ≠ []) :
    (∀ tr : TransportResult,
      (syncData st true tr now nextId).state.retryDelay = st.retryDelay) ∧
    (syncData st true (TransportResult.httpError msg) now nextId).state.retryCount =
      st.retryCount ∧
    (syncData st true (TransportResult.httpError msg) now nextId).events =
      [SyncEvent.syncStart,
       SyncEvent.syncError ("Sync failed: " ++ msg) st.retryCount] ∧
    (syncData st true (TransportResult.httpError msg) now nextId).state.store =
      markSyncErrors st.store (getUnsyncedTodos st.store) ("Sync failed: " ++ msg)
        now ∧
    (syncData st true TransportResult.invalidBody now nextId).state.retryCount =
      st.retryCount ∧
    (syncData st true TransportResult.invalidBody now nextId).events =
      [SyncEvent.syncStart,
       SyncEvent.syncError "Invalid response format from server" st.retryCount] := by
  refine ⟨fun tr => ?_, ?_, ?_, ?_, ?_, ?_⟩
  · cases tr <;>
      simp [syncData, sendToServer, hon, hprog, List.length_eq_zero, hdirty]
  all_goals
    simp [syncData, sendToServer, hon, hprog, List.length_eq_zero, hdirty]

/-- C3, witness: the amended statement at the concrete idle online state. -/
theorem C3_transport_error_no_retry_witness :
    (syncData c3State true (TransportResult.httpError "boom") 300 5).state.retryCount =
      c3State.retryCount ∧
    (syncData c3State true (TransportResult.httpError "boom") 300 5).state.retryDelay =
      c3State.retryDelay :=
  ⟨(C3_transport_error_no_retry c3State "boom" 300 5 rfl rfl (by decide)).2.1,
   (C3_transport_error_no_retry c3State "boom" 300 5 rfl rfl (by decide)).1
     (TransportResult.httpError "boom")⟩

/-! ### C5 -/

/-- C5, counterexample: the first failed cycle from retryCount 0 schedules a
2000 ms delay, not the 1000 ms the claimed sequence begins with, because the
code increments retryCount before computing the backoff formula. -/
theorem C5_first_backoff_eval :
    (syncData c3State false (TransportResult.ok []) 300 5).state.retryCount = 1 ∧
      (syncData c3State false (TransportResult.ok []) 300 5).state.retryDelay =
        some 2000 ∧
      (2000 : Nat) ≠ 1000 := by
  refine ⟨rfl, rfl, by decide⟩

/-- C5, amended: a failed cycle below maxRetries increments retryCount and
schedules the re-attempt after min of 1000 times 2 to the incremented
retryCount and 30000 ms, concretely 2 s, 4 s, 8 s for retryCount 0, 1, 2
(the 30 s ceiling never binds); retryCount is reset to 0 by any successful
cycle and by a fresh online transition. -/
theorem C5_backoff_growth (st : SyncState) (tr : TransportResult)
    (now nextId : Nat) (hon : st.isOnline = true)
    (hprog : st.syncInProgress = false)
    (hdirty : getUnsyncedTodos st.store ≠ [])
    (hlt : st.retryCount < maxRetries) :
    (syncData st false tr now nextId).state.retryCount = st.retryCount + 1 ∧
    (syncData st false tr now nextId).state.retryDelay =
      some (min (1000 * 2 ^ (st.retryCount + 1)) 30000) ∧
    (st.retryCount = 0 →
      (syncData st false tr now nextId).state.retryDelay = some 2000) ∧
    (st.retryCount = 1 →
      (syncData st false tr now nextId).state.retryDelay = some 4000) ∧
    (st.retryCount = 2 →
      (syncData st false tr now nextId).state.retryDelay = some 8000) ∧
    (∀ (st' : SyncState) (l : List ServerTodo) (now' nextId' : Nat),
      st'.isOnline = true → st'.syncInProgress = false →
      getUnsyncedTodos st'.store ≠ [] →
      (syncData st' true (TransportResult.ok l) now' nextId').state.retryCount = 0) ∧
    (handleOnline st).1.retryCount = 0 := by
  have key : (syncData st false tr now nextId).state.retryCount = st.retryCount + 1 ∧
      (syncData st false tr now nextId).state.retryDelay =
        some (min (1000 * 2 ^ (st.retryCount + 1)) 30000) := by
    constructor <;>
      simp [syncData, sendToServer, hon, hprog, List.length_eq_zero, hdirty, hlt]
  refine ⟨key.1, key.2, ?_, ?_, ?_, ?_, rfl⟩
  · intro h
    rw [key.2, h]
    decide
  · intro h
    rw [key.2, h]
    decide
  · intro h
    rw [key.2, h]
    decide
  · intro st' l now' nextId' h1 h2 h3
    simp [syncData, sendToServer, h1, h2, List.length_eq_zero, h3]

/-- C5, witness: the amended statement at the concrete idle online state
with retryCount 0, every hypothesis discharged. -/
theorem C5_backoff_growth_witness :
    (syncData c3State false (TransportResult.ok []) 300 5).state.retryCount =
      c3State.retryCount + 1 ∧
    (syncData c3State false (TransportResult.ok []) 300 5).state.retryDelay =
      some 2000 :=
  ⟨(C5_backoff_growth c3State (TransportResult.ok []) 300 5 rfl rfl (by decide)
      (by decide)).1,
   (C5_backoff_growth c3State (TransportResult.ok []) 300 5 rfl rfl (by decide)
      (by decide)).2.2.1 rfl⟩

/-! ### C6 -/

theorem applyUpdates_syncError (t : TodoItem) (msg : String) (now : Nat) :
    applyUpdates t (syncErrorUpdates msg) now =
      { t with
        syncError := some msg
        updatedAt := now
        lastAction := some Action.update } :=
  rfl

theorem pushedHits_applyUpdates (pushed : List TodoItem) (t : TodoItem)
    (u : TodoUpdates) (now : Nat) :
    pushedHits pushed (applyUpdates t u now) = pushedHits pushed t :=
  rfl

theorem markSyncErrors_eq_map (pushed : List TodoItem) (store : List TodoItem)
    (msg : String) (now : Nat) (h : (pushed.filterMap TodoItem.id).Nodup) :
    markSyncErrors store pushed msg now =
      store.map fun r =>
        if pushedHits pushed r then applyUpdates r (syncErrorUpdates msg) now
        else r := by
  induction pushed generalizing store with
  | nil => simp [markSyncErrors, pushedHits]
  | cons t rest ih =>
    cases ht : t.id with
    | none =>
      have h' : (rest.filterMap TodoItem.id).Nodup := by
        simpa [List.filterMap_cons_none, ht] using h
      have step : markSyncErrors store (t :: rest) msg now =
          markSyncErrors store rest msg now := by
        simp [markSyncErrors, ht]
      rw [step, ih store h']
      congr 1
      funext r
      simp [pushedHits, ht]
    | some i =>
      have hsplit : i ∉ rest.filterMap TodoItem.id ∧
          (rest.filterMap TodoItem.id).Nodup := by
        have h2 := h
        rw [List.filterMap_cons_some ht] at h2
        exact List.nodup_cons.mp h2
      have step : markSyncErrors store (t :: rest) msg now =
          markSyncErrors (updateTodo store i (syncErrorUpdates msg) now) rest
            msg now := by
        simp [markSyncErrors, ht]
      rw [step, ih _ hsplit.2, updateTodo, List.map_map]
      congr 1
      funext r
      by_cases hr : r.id = some i
      · have hfalse : pushedHits rest r = false := by
          rw [pushedHits, List.any_eq_false]
          intro p hp hcond
          rw [Bool.and_eq_true, decide_eq_true_eq] at hcond
          refine hsplit.1 (List.mem_filterMap.mpr ⟨p, hp, ?_⟩)
          rw [hcond.2, hr]
        have hhit : pushedHits (t :: rest) r = true := by
          simp [pushedHits, ht, hr]
        simp only [Function.comp_apply, if_pos hr]
        rw [pushedHits_applyUpdates, hfalse, hhit]
        simp
      · have hr' : (some i : Option Nat) ≠ r.id := fun hh => hr hh.symm
        have hstep : pushedHits (t :: rest) r = pushedHits rest r := by
          simp [pushedHits, ht, hr']
        simp only [Function.comp_apply, if_neg hr]
        rw [hstep]

/-- C6, counterexample: annotating the pushed record with a syncError also
rewrites its lastAction from create to update and its updatedAt to the
current time, so the other fields are not left unchanged. -/
theorem C6_annotation_changes_frame_eval :
    markSyncErrors [c2Local] [c2Local] "Sync failed: boom" 300 =
      [{ c2Local with
          syncError := some "Sync failed: boom"
          updatedAt := 300
          lastAction := some Action.update }] ∧
      c2Local.lastAction = some Action.create ∧ c2Local.updatedAt = 100 :=
  ⟨rfl, rfl, rfl⟩

/-- C6, amended: on a transport failure every store record hit by the pushed
batch gets syncError set to the failure message, lastAction coerced to
update and updatedAt set to the current time, while id, serverId, title,
completed, createdAt, syncedAt, deleted, localOnly and serverDeleted are
unchanged; records not hit are untouched, and an annotated record is still
dirty whenever its syncedAt is unset or earlier than the current time. -/
theorem C6_error_annotation (store pushed : List TodoItem) (msg : String)
    (now : Nat) (h : (pushed.filterMap TodoItem.id).Nodup) :
    markSyncErrors store pushed msg now =
      store.map (fun r =>
        if pushedHits pushed r then
          { r with
            syncError := some msg
            updatedAt := now
            lastAction := some Action.update }
        else r) ∧
    (∀ t : TodoItem, t.syncedAt = none ∨ t.syncedAt.getD 0 < now →
      isUnsynced (applyUpdates t (syncErrorUpdates msg) now) = true) := by
  constructor
  · rw [markSyncErrors_eq_map pushed store msg now h]
    congr 1
  · intro t htime
    rw [applyUpdates_syncError, isUnsynced_iff]
    rcases htime with hnone | hlt
    · exact Or.inl hnone
    · exact Or.inr (Or.inr ⟨rfl, hlt⟩)

/-- C6, witness: the amended annotation shape at a one-record store and
batch, the id-uniqueness hypothesis discharged. -/
theorem C6_error_annotation_witness :
    markSyncErrors [c2Local] [c2Local] "boom" 300 =
      [c2Local].map (fun r =>
        if pushedHits [c2Local] r then
          { r with
            syncError := some "boom"
            updatedAt := 300
            lastAction := some Action.update }
        else r) ∧
    (∀ t : TodoItem, t.syncedAt = none ∨ t.syncedAt.getD 0 < 300 →
      isUnsynced (applyUpdates t (syncErrorUpdates "boom") 300) = true) :=
  C6_error_annotation [c2Local] [c2Local] "boom" 300 (by decide)

end OfflinePoc
